import Mathlib

/-!
Verification of the TheNewsAPI MCP server (`src/server.py`).

The server exposes eight tools. Five of them (`search_all_news`,
`get_top_news`, `get_headlines`, `get_similar_articles`, `get_sources`) build
a query-parameter dictionary, perform one `requests.get` call against a fixed
endpoint under `BASE_URL`, and return `str(response.json())`. Three of them
(`get_categories`, `get_locales`, `get_languages`) return the `str()` of a
hard-coded dictionary.

The embedding below models:
- parsed JSON / Python data as the inductive `Json`;
- Python `str()` of such data as `pyRepr` (single-quoted strings, `True`,
  `False`, `None`), and the verbatim JSON text as `jsonText`;
- the outbound request (URL, parameter dictionary in insertion order,
  timeout) as `HttpRequest`;
- the process environment as `Env`, read at call time by `get_api_key`;
- the `requests` library semantics as `runTool`: a network error raises, a
  malformed (non-JSON) body makes `response.json()` raise, and the HTTP
  status code is never inspected (a non-2xx response with a JSON body
  returns normally, since the source never calls `raise_for_status`);
- each tool as a request builder (`*_request`), an execution
  (`*` : `Except PyErr String`), and a traced run (`*_run`) whose first
  component is the list of outbound HTTP calls the invocation performs.
-/

/-- Parsed JSON data, which is also the shape of the Python values the server
builds (`response.json()` results and the hard-coded dictionaries). -/
inductive Json where
  | null : Json
  | bool (b : Bool) : Json
  | num (n : Int) : Json
  | str (s : String) : Json
  | arr (items : List Json) : Json
  | obj (fields : List (String × Json)) : Json

/-- Python single-quote character, used by `str()` on strings inside
containers. -/
def pySQ : String := String.singleton (Char.ofNat 39)

mutual

/-- Python `str()` (equivalently `repr()` inside containers) of parsed JSON
data: `None` / `True` / `False`, decimal integers, single-quoted strings,
`[...]` lists and `\x7b...\x7d` dicts with `, ` and `: ` separators. -/
def pyRepr : Json → String
  | .null => "None"
  | .bool true => "True"
  | .bool false => "False"
  | .num n => toString n
  | .str s => pySQ ++ s ++ pySQ
  | .arr items => "[" ++ pyReprItems items ++ "]"
  | .obj fields => "\x7b" ++ pyReprFields fields ++ "\x7d"

/-- Comma-separated Python reprs of the elements of a list. -/
def pyReprItems : List Json → String
  | [] => ""
  | [x] => pyRepr x
  | x :: y :: rest => pyRepr x ++ ", " ++ pyReprItems (y :: rest)

/-- Comma-separated Python reprs of the key-value pairs of a dict. -/
def pyReprFields : List (String × Json) → String
  | [] => ""
  | [(k, v)] => pySQ ++ k ++ pySQ ++ ": " ++ pyRepr v
  | (k, v) :: kv :: rest =>
      pySQ ++ k ++ pySQ ++ ": " ++ pyRepr v ++ ", " ++ pyReprFields (kv :: rest)

end

mutual

/-- Verbatim JSON serialization of a JSON value: the textual form the
upstream service sends on the wire. -/
def jsonText : Json → String
  | .null => "null"
  | .bool true => "true"
  | .bool false => "false"
  | .num n => toString n
  | .str s => "\"" ++ s ++ "\""
  | .arr items => "[" ++ jsonTextItems items ++ "]"
  | .obj fields => "\x7b" ++ jsonTextFields fields ++ "\x7d"

/-- Comma-separated JSON texts of the elements of an array. -/
def jsonTextItems : List Json → String
  | [] => ""
  | [x] => jsonText x
  | x :: y :: rest => jsonText x ++ "," ++ jsonTextItems (y :: rest)

/-- Comma-separated JSON texts of the members of an object. -/
def jsonTextFields : List (String × Json) → String
  | [] => ""
  | [(k, v)] => "\"" ++ k ++ "\":" ++ jsonText v
  | (k, v) :: kv :: rest =>
      "\"" ++ k ++ "\":" ++ jsonText v ++ "," ++ jsonTextFields (kv :: rest)

end

/-- An outbound HTTP GET request as the source hands it to `requests.get`:
the URL, the `params` dictionary in insertion order, and the timeout in
seconds. -/
structure HttpRequest where
  url : String
  params : List (String × Json)
  timeout : Nat

/-- The body of an upstream HTTP response: either a well-formed JSON body
(represented by its parse tree; its wire text is `jsonText`) or a malformed
body on which `response.json()` raises. -/
inductive Body where
  | json (j : Json) : Body
  | malformed (raw : String) : Body

/-- What the upstream does with a request: fail at the network level
(DNS/connect/timeout, making `requests.get` raise) or answer with an HTTP
status code and a body. -/
inductive UpstreamResult where
  | netError : UpstreamResult
  | response (status : Nat) (body : Body) : UpstreamResult

/-- A stubbed upstream: a function from the outbound request to its
result. -/
abbrev Upstream := HttpRequest → UpstreamResult

/-- The Python exceptions the tool bodies can let escape: a
`requests.exceptions.RequestException` from `requests.get`, or a JSON decode
error from `response.json()`. -/
inductive PyErr where
  | requestException : PyErr
  | jsonDecodeError : PyErr
deriving DecidableEq

/-- The process environment: a partial map from variable names to values,
as read by `os.getenv`. -/
abbrev Env := String → Option String

/-- The source's `get_api_key`: read `NEWS_API_KEY` from the environment at
call time. -/
def get_api_key (env : Env) : Option String := env "NEWS_API_KEY"

/-- A Python `Optional[str]` value placed in the params dict: `None` becomes
JSON null, a string stays a string. -/
def optJson : Option String → Json
  | none => Json.null
  | some s => Json.str s

/-- The `if value:` pattern of the source: append `(key, value)` to the
params dict only when the Python value is truthy, i.e. the optional is
present and non-empty. -/
def addOpt (ps : List (String × Json)) (key : String) (v : Option String) :
    List (String × Json) :=
  match v with
  | none => ps
  | some s => if s = "" then ps else ps ++ [(key, Json.str s)]

/-- The source's `BASE_URL` constant. -/
def BASE_URL : String := "https://api.thenewsapi.com/v1/news"

/-- Shared tail of every network tool body: `requests.get(...)` followed by
`return str(response.json())`. A network error propagates as
`requestException`; a malformed body propagates as `jsonDecodeError`; the
status code is never inspected. -/
def runTool (req : HttpRequest) (up : Upstream) : Except PyErr String :=
  match up req with
  | .netError => .error .requestException
  | .response _ (.malformed _) => .error .jsonDecodeError
  | .response _ (.json j) => .ok (pyRepr j)

/-- Parameters of `search_all_news`, with the source's defaults. -/
structure SearchAllNewsArgs where
  search : String
  language : Option String := none
  published_after : Option String := none
  published_before : Option String := none
  categories : Option String := none
  source_ids : Option String := none
  domains : Option String := none
  exclude_domains : Option String := none
  locale : Option String := none
  limit : Int := 10
  page : Int := 1
  sort : String := "published_at"

/-- The request `search_all_news` builds: required params in source order,
`limit` clamped by `min(limit, 100)`, then the truthy optionals, sent to
`BASE_URL + "/all"` with timeout 15. -/
def search_all_news_request (a : SearchAllNewsArgs) (env : Env) : HttpRequest :=
  let params : List (String × Json) :=
    [("api_token", optJson (get_api_key env)),
     ("search", Json.str a.search),
     ("limit", Json.num (min a.limit 100)),
     ("page", Json.num a.page),
     ("sort", Json.str a.sort)]
  let params := addOpt params "language" a.language
  let params := addOpt params "published_after" a.published_after
  let params := addOpt params "published_before" a.published_before
  let params := addOpt params "categories" a.categories
  let params := addOpt params "source_ids" a.source_ids
  let params := addOpt params "domains" a.domains
  let params := addOpt params "exclude_domains" a.exclude_domains
  let params := addOpt params "locale" a.locale
  { url := BASE_URL ++ "/all", params := params, timeout := 15 }

/-- The `search_all_news` tool. -/
def search_all_news (a : SearchAllNewsArgs) (env : Env) (up : Upstream) :
    Except PyErr String :=
  runTool (search_all_news_request a env) up

/-- Traced run of `search_all_news`: the outbound calls it performs and its
result. -/
def search_all_news_run (a : SearchAllNewsArgs) (env : Env) (up : Upstream) :
    List HttpRequest × Except PyErr String :=
  ([search_all_news_request a env], search_all_news a env up)

/-- Parameters of `get_top_news`, with the source's defaults. -/
structure GetTopNewsArgs where
  locale : Option String := none
  language : Option String := none
  categories : Option String := none
  source_ids : Option String := none
  domains : Option String := none
  exclude_domains : Option String := none
  published_after : Option String := none
  published_before : Option String := none
  search : Option String := none
  limit : Int := 10
  page : Int := 1

/-- The request `get_top_news` builds, sent to `BASE_URL + "/top"`. -/
def get_top_news_request (a : GetTopNewsArgs) (env : Env) : HttpRequest :=
  let params : List (String × Json) :=
    [("api_token", optJson (get_api_key env)),
     ("limit", Json.num (min a.limit 100)),
     ("page", Json.num a.page)]
  let params := addOpt params "locale" a.locale
  let params := addOpt params "language" a.language
  let params := addOpt params "categories" a.categories
  let params := addOpt params "source_ids" a.source_ids
  let params := addOpt params "domains" a.domains
  let params := addOpt params "exclude_domains" a.exclude_domains
  let params := addOpt params "published_after" a.published_after
  let params := addOpt params "published_before" a.published_before
  let params := addOpt params "search" a.search
  { url := BASE_URL ++ "/top", params := params, timeout := 15 }

/-- The `get_top_news` tool. -/
def get_top_news (a : GetTopNewsArgs) (env : Env) (up : Upstream) :
    Except PyErr String :=
  runTool (get_top_news_request a env) up

/-- Traced run of `get_top_news`. -/
def get_top_news_run (a : GetTopNewsArgs) (env : Env) (up : Upstream) :
    List HttpRequest × Except PyErr String :=
  ([get_top_news_request a env], get_top_news a env up)

/-- Parameters of `get_headlines`, with the source's defaults. -/
structure GetHeadlinesArgs where
  locale : String := "us"
  language : String := "en"

/-- The request `get_headlines` builds, sent to `BASE_URL + "/headlines"`;
`locale` and `language` are always included. -/
def get_headlines_request (a : GetHeadlinesArgs) (env : Env) : HttpRequest :=
  { url := BASE_URL ++ "/headlines",
    params :=
      [("api_token", optJson (get_api_key env)),
       ("locale", Json.str a.locale),
       ("language", Json.str a.language)],
    timeout := 15 }

/-- The `get_headlines` tool. -/
def get_headlines (a : GetHeadlinesArgs) (env : Env) (up : Upstream) :
    Except PyErr String :=
  runTool (get_headlines_request a env) up

/-- Traced run of `get_headlines`. -/
def get_headlines_run (a : GetHeadlinesArgs) (env : Env) (up : Upstream) :
    List HttpRequest × Except PyErr String :=
  ([get_headlines_request a env], get_headlines a env up)

/-- Parameters of `get_similar_articles`, with the source's defaults. -/
structure GetSimilarArticlesArgs where
  uuid : String
  limit : Int := 10
  page : Int := 1
  published_after : Option String := none
  published_before : Option String := none
  language : Option String := none

/-- The request `get_similar_articles` builds: the f-string
`f"\x7bBASE_URL\x7d/similar/\x7buuid\x7d"` interpolates the raw `uuid` into
the path with no escaping or validation. -/
def get_similar_articles_request (a : GetSimilarArticlesArgs) (env : Env) :
    HttpRequest :=
  let params : List (String × Json) :=
    [("api_token", optJson (get_api_key env)),
     ("limit", Json.num (min a.limit 100)),
     ("page", Json.num a.page)]
  let params := addOpt params "published_after" a.published_after
  let params := addOpt params "published_before" a.published_before
  let params := addOpt params "language" a.language
  { url := BASE_URL ++ "/similar/" ++ a.uuid, params := params, timeout := 15 }

/-- The `get_similar_articles` tool. -/
def get_similar_articles (a : GetSimilarArticlesArgs) (env : Env)
    (up : Upstream) : Except PyErr String :=
  runTool (get_similar_articles_request a env) up

/-- Traced run of `get_similar_articles`. -/
def get_similar_articles_run (a : GetSimilarArticlesArgs) (env : Env)
    (up : Upstream) : List HttpRequest × Except PyErr String :=
  ([get_similar_articles_request a env], get_similar_articles a env up)

/-- Parameters of `get_sources`, with the source's defaults. -/
structure GetSourcesArgs where
  locale : Option String := none
  language : Option String := none
  category : Option String := none

/-- The request `get_sources` builds, sent to `BASE_URL + "/sources"`. -/
def get_sources_request (a : GetSourcesArgs) (env : Env) : HttpRequest :=
  let params : List (String × Json) := [("api_token", optJson (get_api_key env))]
  let params := addOpt params "locale" a.locale
  let params := addOpt params "language" a.language
  let params := addOpt params "category" a.category
  { url := BASE_URL ++ "/sources", params := params, timeout := 15 }

/-- The `get_sources` tool. -/
def get_sources (a : GetSourcesArgs) (env : Env) (up : Upstream) :
    Except PyErr String :=
  runTool (get_sources_request a env) up

/-- Traced run of `get_sources`. -/
def get_sources_run (a : GetSourcesArgs) (env : Env) (up : Upstream) :
    List HttpRequest × Except PyErr String :=
  ([get_sources_request a env], get_sources a env up)

/-- The hard-coded dictionary `get_categories` stringifies. -/
def get_categories_value : Json :=
  Json.obj
    [("categories",
      Json.arr
        [Json.str "general", Json.str "business", Json.str "tech",
         Json.str "science", Json.str "sports", Json.str "health",
         Json.str "entertainment"])]

/-- The `get_categories` tool: `str()` of the hard-coded dictionary. -/
def get_categories : String := pyRepr get_categories_value

/-- Traced run of `get_categories`: it reads nothing and performs no
outbound call. -/
def get_categories_run (_env : Env) (_up : Upstream) :
    List HttpRequest × Except PyErr String :=
  ([], .ok get_categories)

/-- The hard-coded dictionary `get_locales` stringifies. -/
def get_locales_value : Json :=
  Json.obj
    [("locales",
      Json.arr
        (["us", "gb", "ca", "au", "nz", "ie",
          "de", "at", "ch",
          "fr", "be",
          "es", "mx", "ar",
          "it",
          "nl",
          "pt", "br",
          "ru",
          "jp", "cn", "kr", "in"].map Json.str))]

/-- The `get_locales` tool: `str()` of the hard-coded dictionary. -/
def get_locales : String := pyRepr get_locales_value

/-- Traced run of `get_locales`. -/
def get_locales_run (_env : Env) (_up : Upstream) :
    List HttpRequest × Except PyErr String :=
  ([], .ok get_locales)

/-- The hard-coded dictionary `get_languages` stringifies. -/
def get_languages_value : Json :=
  Json.obj
    [("languages",
      Json.arr
        (["en", "es", "fr", "de", "it", "pt", "nl", "ru",
          "ar", "zh", "ja", "ko", "hi", "sv", "no", "da"].map Json.str))]

/-- The `get_languages` tool: `str()` of the hard-coded dictionary. -/
def get_languages : String := pyRepr get_languages_value

/-- Traced run of `get_languages`. -/
def get_languages_run (_env : Env) (_up : Upstream) :
    List HttpRequest × Except PyErr String :=
  ([], .ok get_languages)

/-- First value bound to a key in a params dictionary (keys are distinct in
every request the server builds, so this is dictionary lookup). -/
def findParam (key : String) : List (String × Json) → Option Json
  | [] => none
  | (k, v) :: ps => bif k == key then some v else findParam key ps

/-- Value under which an optional string parameter appears in the params
dict: absent when the Python value is falsy (absent or empty string),
present as a JSON string otherwise. -/
def optParamVal : Option String → Option Json
  | none => none
  | some s => if s = "" then none else some (Json.str s)

/-- Lookup skips a prefix in which the key is not found. -/
theorem findParam_append_of_none (target : String) (ps qs : List (String × Json))
    (h : findParam target ps = none) :
    findParam target (ps ++ qs) = findParam target qs := by
  induction ps with
  | nil => rfl
  | cons p ps ih =>
      obtain ⟨k, v⟩ := p
      cases hk : (k == target) with
      | true => simp [findParam, hk] at h
      | false =>
          simp only [findParam, hk, cond_false] at h ⊢
          exact ih h

/-- Lookup is unaffected by entries appended after a hit. -/
theorem findParam_append_of_some (target : String) (ps qs : List (String × Json))
    (w : Json) (h : findParam target ps = some w) :
    findParam target (ps ++ qs) = some w := by
  induction ps with
  | nil => simp [findParam] at h
  | cons p ps ih =>
      obtain ⟨k, v⟩ := p
      cases hk : (k == target) with
      | true => simp_all [findParam]
      | false =>
          simp only [findParam, hk, cond_false] at h ⊢
          exact ih h

/-- Appending an optional entry under a different key does not change a
lookup. -/
theorem findParam_addOpt_ne (ps : List (String × Json)) {key target : String}
    (v : Option String) (h : (key == target) = false) :
    findParam target (addOpt ps key v) = findParam target ps := by
  cases v with
  | none => rfl
  | some s =>
      unfold addOpt
      by_cases hs : s = ""
      · simp [hs]
      · simp only [hs, if_false]
        cases hf : findParam target ps with
        | some w => rw [findParam_append_of_some _ _ _ _ hf]
        | none =>
            rw [findParam_append_of_none _ _ _ hf]
            simp [findParam, h]

/-- Looking up the key of an optional entry not present earlier yields the
optional-parameter value. -/
theorem findParam_addOpt_self (ps : List (String × Json)) (key : String)
    (v : Option String) (h : findParam key ps = none) :
    findParam key (addOpt ps key v) = optParamVal v := by
  cases v with
  | none => exact h
  | some s =>
      unfold addOpt optParamVal
      by_cases hs : s = ""
      · simp [hs, h]
      · simp only [hs, if_false]
        rw [findParam_append_of_none _ _ _ h]
        simp [findParam]

/-- Distinct credential values embed as distinct params-dict values. -/
theorem optJson_injective (o1 o2 : Option String) (h : optJson o1 = optJson o2) :
    o1 = o2 := by
  cases o1 with
  | none => cases o2 with
    | none => rfl
    | some s => exact absurd h (by simp [optJson])
  | some s => cases o2 with
    | none => exact absurd h (by simp [optJson])
    | some t => simpa [optJson] using h

/-- C1: in `search_all_news`, `get_top_news` and `get_similar_articles` the
transmitted `limit` parameter equals `min(limit, 100)`: values above 100 are
transmitted as exactly 100 and values at or below 100 — including zero and
negative values — are transmitted unchanged, with no lower bound applied. -/
theorem C1_limit_clamped_to_100 (sa : SearchAllNewsArgs) (ta : GetTopNewsArgs)
    (ga : GetSimilarArticlesArgs) (env : Env) (l : Int) :
    findParam "limit" (search_all_news_request sa env).params
        = some (Json.num (min sa.limit 100)) ∧
    findParam "limit" (get_top_news_request ta env).params
        = some (Json.num (min ta.limit 100)) ∧
    findParam "limit" (get_similar_articles_request ga env).params
        = some (Json.num (min ga.limit 100)) ∧
    (100 < l → min l 100 = 100) ∧
    (l ≤ 100 → min l 100 = l) := by
  refine ⟨?_, ?_, ?_, fun h => min_eq_right h.le, fun h => min_eq_left h⟩
  · simp [search_all_news_request, findParam_addOpt_ne, findParam]
  · simp [get_top_news_request, findParam_addOpt_ne, findParam]
  · simp [get_similar_articles_request, findParam_addOpt_ne, findParam]

/-- C1 witness: at `limit = 150` the transmitted value is 100, and at
`limit = -5` it is -5. -/
theorem C1_limit_clamped_to_100_witness :
    findParam "limit"
        (search_all_news_request { search := "x", limit := 150 }
          (fun _ => none)).params = some (Json.num (min (150 : Int) 100)) ∧
    min (150 : Int) 100 = 100 ∧ min (-5 : Int) 100 = -5 :=
  ⟨(C1_limit_clamped_to_100 { search := "x", limit := 150 } {} { uuid := "u" }
      (fun _ => none) 150).1,
   (C1_limit_clamped_to_100 { search := "x" } {} { uuid := "u" }
      (fun _ => none) 150).2.2.2.1 (by decide),
   (C1_limit_clamped_to_100 { search := "x" } {} { uuid := "u" }
      (fun _ => none) (-5)).2.2.2.2 (by decide)⟩

/-- C2 counterexample: the optional `language` parameter provided as the
empty string is omitted from the outbound request of `search_all_news`, so
a provided optional parameter is not always included. -/
theorem C2_counterexample :
    findParam "language"
        (search_all_news_request { search := "x", language := some "" }
          (fun _ => some "tok")).params = none := rfl

/-- C2 amended: for every tool and every optional parameter, the outbound
request binds the parameter's key to `optParamVal` of the supplied value: the
key is absent when the parameter is not provided and also when it is provided
as the empty string (Python falsiness), and otherwise it is present with the
provided string value under its upstream key name. -/
theorem C2_optional_param_inclusion (sa : SearchAllNewsArgs)
    (ta : GetTopNewsArgs) (ga : GetSimilarArticlesArgs) (so : GetSourcesArgs)
    (env : Env) :
    findParam "language" (search_all_news_request sa env).params
        = optParamVal sa.language ∧
    findParam "published_after" (search_all_news_request sa env).params
        = optParamVal sa.published_after ∧
    findParam "published_before" (search_all_news_request sa env).params
        = optParamVal sa.published_before ∧
    findParam "categories" (search_all_news_request sa env).params
        = optParamVal sa.categories ∧
    findParam "source_ids" (search_all_news_request sa env).params
        = optParamVal sa.source_ids ∧
    findParam "domains" (search_all_news_request sa env).params
        = optParamVal sa.domains ∧
    findParam "exclude_domains" (search_all_news_request sa env).params
        = optParamVal sa.exclude_domains ∧
    findParam "locale" (search_all_news_request sa env).params
        = optParamVal sa.locale ∧
    findParam "locale" (get_top_news_request ta env).params
        = optParamVal ta.locale ∧
    findParam "language" (get_top_news_request ta env).params
        = optParamVal ta.language ∧
    findParam "categories" (get_top_news_request ta env).params
        = optParamVal ta.categories ∧
    findParam "source_ids" (get_top_news_request ta env).params
        = optParamVal ta.source_ids ∧
    findParam "domains" (get_top_news_request ta env).params
        = optParamVal ta.domains ∧
    findParam "exclude_domains" (get_top_news_request ta env).params
        = optParamVal ta.exclude_domains ∧
    findParam "published_after" (get_top_news_request ta env).params
        = optParamVal ta.published_after ∧
    findParam "published_before" (get_top_news_request ta env).params
        = optParamVal ta.published_before ∧
    findParam "search" (get_top_news_request ta env).params
        = optParamVal ta.search ∧
    findParam "published_after" (get_similar_articles_request ga env).params
        = optParamVal ga.published_after ∧
    findParam "published_before" (get_similar_articles_request ga env).params
        = optParamVal ga.published_before ∧
    findParam "language" (get_similar_articles_request ga env).params
        = optParamVal ga.language ∧
    findParam "locale" (get_sources_request so env).params
        = optParamVal so.locale ∧
    findParam "language" (get_sources_request so env).params
        = optParamVal so.language ∧
    findParam "category" (get_sources_request so env).params
        = optParamVal so.category := by
  refine ⟨?_, ?_, ?_, ?_, ?_, ?_, ?_, ?_, ?_, ?_, ?_, ?_, ?_, ?_, ?_, ?_, ?_,
    ?_, ?_, ?_, ?_, ?_, ?_⟩ <;>
    simp [search_all_news_request, get_top_news_request,
      get_similar_articles_request, get_sources_request, findParam_addOpt_ne,
      findParam_addOpt_self, findParam]

/-- C2 witness for the amended claim: with `language` omitted the key is
absent, and with `language = "en"` it is transmitted as `"en"`. -/
theorem C2_optional_param_inclusion_witness :
    findParam "language"
        (search_all_news_request { search := "x" } (fun _ => some "tok")).params
      = optParamVal none ∧
    findParam "language"
        (search_all_news_request { search := "x", language := some "en" }
          (fun _ => some "tok")).params = optParamVal (some "en") :=
  ⟨(C2_optional_param_inclusion { search := "x" } {} { uuid := "u" } {}
      (fun _ => some "tok")).1,
   (C2_optional_param_inclusion { search := "x", language := some "en" } {}
      { uuid := "u" } {} (fun _ => some "tok")).1⟩

/-- C3 counterexample: with a stubbed upstream whose JSON body is `true`
(wire text `"true"`), `search_all_news` returns `"True"` — the Python `str()`
of the parsed value — which differs from the body's verbatim text, so the
response is re-serialized rather than passed through verbatim. -/
theorem C3_counterexample :
    search_all_news { search := "x" } (fun _ => some "tok")
        (fun _ => .response 200 (.json (Json.bool true))) = .ok "True" ∧
    jsonText (Json.bool true) = "true" ∧
    ("True" : String) ≠ "true" :=
  ⟨rfl, rfl, by decide⟩

/-- C3 amended: for every tool and every JSON body returned by the upstream,
the tool's return value is Python's `str()` of the parsed body (`pyRepr`):
the data round-trips unreshaped, but the returned text is the Python repr of
the parsed JSON, not the verbatim upstream text. -/
theorem C3_return_is_str_of_parsed_json (st : Nat) (j : Json)
    (sa : SearchAllNewsArgs) (ta : GetTopNewsArgs) (ha : GetHeadlinesArgs)
    (ga : GetSimilarArticlesArgs) (so : GetSourcesArgs) (env : Env) :
    search_all_news sa env (fun _ => .response st (.json j)) = .ok (pyRepr j) ∧
    get_top_news ta env (fun _ => .response st (.json j)) = .ok (pyRepr j) ∧
    get_headlines ha env (fun _ => .response st (.json j)) = .ok (pyRepr j) ∧
    get_similar_articles ga env (fun _ => .response st (.json j))
        = .ok (pyRepr j) ∧
    get_sources so env (fun _ => .response st (.json j)) = .ok (pyRepr j) :=
  ⟨rfl, rfl, rfl, rfl, rfl⟩

/-- C4 counterexample: with a stubbed upstream returning HTTP 500 with a
valid JSON body, `search_all_news` does not propagate a failure: the status
code is never inspected and the body is converted into a normal return
value. -/
theorem C4_counterexample :
    search_all_news { search := "x" } (fun _ => some "tok")
        (fun _ =>
          .response 500 (.json (Json.obj [("error", Json.str "internal")])))
      = .ok (pyRepr (Json.obj [("error", Json.str "internal")])) := rfl

/-- C4 amended: network errors and malformed response bodies are unhandled
and propagate as uncaught failures for every tool, but a non-success HTTP
status by itself does not fail: the status code is ignored, and any response
whose body is valid JSON — whatever its status — becomes a normal return
value. -/
theorem C4_failure_propagation (st : Nat) (raw : String) (j : Json)
    (sa : SearchAllNewsArgs) (ta : GetTopNewsArgs) (ha : GetHeadlinesArgs)
    (ga : GetSimilarArticlesArgs) (so : GetSourcesArgs) (env : Env) :
    search_all_news sa env (fun _ => .netError) = .error .requestException ∧
    search_all_news sa env (fun _ => .response st (.malformed raw))
        = .error .jsonDecodeError ∧
    search_all_news sa env (fun _ => .response st (.json j)) = .ok (pyRepr j) ∧
    get_top_news ta env (fun _ => .netError) = .error .requestException ∧
    get_top_news ta env (fun _ => .response st (.malformed raw))
        = .error .jsonDecodeError ∧
    get_top_news ta env (fun _ => .response st (.json j)) = .ok (pyRepr j) ∧
    get_headlines ha env (fun _ => .netError) = .error .requestException ∧
    get_headlines ha env (fun _ => .response st (.malformed raw))
        = .error .jsonDecodeError ∧
    get_headlines ha env (fun _ => .response st (.json j)) = .ok (pyRepr j) ∧
    get_similar_articles ga env (fun _ => .netError)
        = .error .requestException ∧
    get_similar_articles ga env (fun _ => .response st (.malformed raw))
        = .error .jsonDecodeError ∧
    get_similar_articles ga env (fun _ => .response st (.json j))
        = .ok (pyRepr j) ∧
    get_sources so env (fun _ => .netError) = .error .requestException ∧
    get_sources so env (fun _ => .response st (.malformed raw))
        = .error .jsonDecodeError ∧
    get_sources so env (fun _ => .response st (.json j)) = .ok (pyRepr j) :=
  ⟨rfl, rfl, rfl, rfl, rfl, rfl, rfl, rfl, rfl, rfl, rfl, rfl, rfl, rfl, rfl⟩

/-- C5 counterexample: `get_categories` is a tool operation, its declared
schema has no parameters (so every invocation conforms), and an invocation
performs zero outbound HTTP calls — not exactly one. -/
theorem C5_counterexample :
    (get_categories_run (fun _ => some "tok") (fun _ => .netError)).1.length
      = 0 := rfl

/-- C5 amended: each of the five network-backed tools performs exactly one
outbound HTTP call per invocation — the single request its builder
constructs, aimed at its fixed endpoint under `BASE_URL` — with no retry,
pagination or aggregation and no side effect beyond that call, while the
three enumeration tools (`get_categories`, `get_locales`, `get_languages`)
perform zero outbound calls. -/
theorem C5_single_outbound_call (sa : SearchAllNewsArgs) (ta : GetTopNewsArgs)
    (ha : GetHeadlinesArgs) (ga : GetSimilarArticlesArgs) (so : GetSourcesArgs)
    (env : Env) (up : Upstream) :
    (search_all_news_run sa env up).1 = [search_all_news_request sa env] ∧
    (search_all_news_request sa env).url = BASE_URL ++ "/all" ∧
    (get_top_news_run ta env up).1 = [get_top_news_request ta env] ∧
    (get_top_news_request ta env).url = BASE_URL ++ "/top" ∧
    (get_headlines_run ha env up).1 = [get_headlines_request ha env] ∧
    (get_headlines_request ha env).url = BASE_URL ++ "/headlines" ∧
    (get_similar_articles_run ga env up).1
        = [get_similar_articles_request ga env] ∧
    (get_similar_articles_request ga env).url
        = BASE_URL ++ "/similar/" ++ ga.uuid ∧
    (get_sources_run so env up).1 = [get_sources_request so env] ∧
    (get_sources_request so env).url = BASE_URL ++ "/sources" ∧
    (get_categories_run env up).1 = [] ∧
    (get_locales_run env up).1 = [] ∧
    (get_languages_run env up).1 = [] :=
  ⟨rfl, rfl, rfl, rfl, rfl, rfl, rfl, rfl, rfl, rfl, rfl, rfl, rfl⟩

/-- C6: the enumeration tools return constants independent of the
environment and the upstream, perform no outbound call, and the categories
returned by `get_categories` are exactly general, business, tech, science,
sports, health and entertainment. -/
theorem C6_enumerations_constant (e1 e2 : Env) (u1 u2 : Upstream) :
    get_categories_run e1 u1 = get_categories_run e2 u2 ∧
    get_locales_run e1 u1 = get_locales_run e2 u2 ∧
    get_languages_run e1 u1 = get_languages_run e2 u2 ∧
    (get_categories_run e1 u1).1 = [] ∧
    (get_locales_run e1 u1).1 = [] ∧
    (get_languages_run e1 u1).1 = [] ∧
    (get_categories_run e1 u1).2 = .ok get_categories ∧
    get_categories_value
        = Json.obj
            [("categories",
              Json.arr
                [Json.str "general", Json.str "business", Json.str "tech",
                 Json.str "science", Json.str "sports", Json.str "health",
                 Json.str "entertainment"])] ∧
    get_categories
        = pyRepr
            (Json.obj
              [("categories",
                Json.arr
                  [Json.str "general", Json.str "business", Json.str "tech",
                   Json.str "science", Json.str "sports", Json.str "health",
                   Json.str "entertainment"])]) :=
  ⟨rfl, rfl, rfl, rfl, rfl, rfl, rfl, rfl, rfl⟩

/-- C7: the credential and the declared defaulted parameters are always
included in the outbound request of every network tool — `api_token` in all
five, `limit` and `page` in `search_all_news`, `get_top_news` and
`get_similar_articles`, `sort` in `search_all_news`, `locale` and `language`
in `get_headlines` — and the declared defaults are `limit = 10`, `page = 1`,
`sort = "published_at"` (and `locale = "us"`, `language = "en"` for
`get_headlines`). -/
theorem C7_required_params_included (sa : SearchAllNewsArgs)
    (ta : GetTopNewsArgs) (ha : GetHeadlinesArgs) (ga : GetSimilarArticlesArgs)
    (so : GetSourcesArgs) (env : Env) (s u : String) :
    findParam "api_token" (search_all_news_request sa env).params
        = some (optJson (get_api_key env)) ∧
    findParam "api_token" (get_top_news_request ta env).params
        = some (optJson (get_api_key env)) ∧
    findParam "api_token" (get_headlines_request ha env).params
        = some (optJson (get_api_key env)) ∧
    findParam "api_token" (get_similar_articles_request ga env).params
        = some (optJson (get_api_key env)) ∧
    findParam "api_token" (get_sources_request so env).params
        = some (optJson (get_api_key env)) ∧
    findParam "limit" (search_all_news_request sa env).params
        = some (Json.num (min sa.limit 100)) ∧
    findParam "page" (search_all_news_request sa env).params
        = some (Json.num sa.page) ∧
    findParam "sort" (search_all_news_request sa env).params
        = some (Json.str sa.sort) ∧
    findParam "limit" (get_top_news_request ta env).params
        = some (Json.num (min ta.limit 100)) ∧
    findParam "page" (get_top_news_request ta env).params
        = some (Json.num ta.page) ∧
    findParam "limit" (get_similar_articles_request ga env).params
        = some (Json.num (min ga.limit 100)) ∧
    findParam "page" (get_similar_articles_request ga env).params
        = some (Json.num ga.page) ∧
    findParam "locale" (get_headlines_request ha env).params
        = some (Json.str ha.locale) ∧
    findParam "language" (get_headlines_request ha env).params
        = some (Json.str ha.language) ∧
    ({ search := s } : SearchAllNewsArgs).limit = 10 ∧
    ({ search := s } : SearchAllNewsArgs).page = 1 ∧
    ({ search := s } : SearchAllNewsArgs).sort = "published_at" ∧
    ({} : GetTopNewsArgs).limit = 10 ∧
    ({} : GetTopNewsArgs).page = 1 ∧
    ({ uuid := u } : GetSimilarArticlesArgs).limit = 10 ∧
    ({ uuid := u } : GetSimilarArticlesArgs).page = 1 ∧
    ({} : GetHeadlinesArgs).locale = "us" ∧
    ({} : GetHeadlinesArgs).language = "en" := by
  refine ⟨?_, ?_, ?_, ?_, ?_, ?_, ?_, ?_, ?_, ?_, ?_, ?_, ?_, ?_, rfl, rfl,
    rfl, rfl, rfl, rfl, rfl, rfl, rfl⟩ <;>
    simp [search_all_news_request, get_top_news_request, get_headlines_request,
      get_similar_articles_request, get_sources_request, findParam_addOpt_ne,
      findParam]

/-- C8: every network tool re-reads the credential from the environment at
call time and transmits it as the bare `api_token` query parameter, so the
transmitted token is the environment's value at that invocation, and two
invocations under environments holding different values transmit different
tokens. -/
theorem C8_credential_read_per_call (sa : SearchAllNewsArgs)
    (ta : GetTopNewsArgs) (ha : GetHeadlinesArgs) (ga : GetSimilarArticlesArgs)
    (so : GetSourcesArgs) (env env2 : Env)
    (h : env "NEWS_API_KEY" ≠ env2 "NEWS_API_KEY") :
    findParam "api_token" (search_all_news_request sa env).params
        = some (optJson (env "NEWS_API_KEY")) ∧
    findParam "api_token" (get_top_news_request ta env).params
        = some (optJson (env "NEWS_API_KEY")) ∧
    findParam "api_token" (get_headlines_request ha env).params
        = some (optJson (env "NEWS_API_KEY")) ∧
    findParam "api_token" (get_similar_articles_request ga env).params
        = some (optJson (env "NEWS_API_KEY")) ∧
    findParam "api_token" (get_sources_request so env).params
        = some (optJson (env "NEWS_API_KEY")) ∧
    get_api_key env = env "NEWS_API_KEY" ∧
    findParam "api_token" (search_all_news_request sa env).params
        ≠ findParam "api_token" (search_all_news_request sa env2).params := by
  have h1 : findParam "api_token" (search_all_news_request sa env).params
      = some (optJson (env "NEWS_API_KEY")) := by
    simp [search_all_news_request, findParam_addOpt_ne, findParam, get_api_key]
  have h2 : findParam "api_token" (search_all_news_request sa env2).params
      = some (optJson (env2 "NEWS_API_KEY")) := by
    simp [search_all_news_request, findParam_addOpt_ne, findParam, get_api_key]
  refine ⟨h1, ?_, ?_, ?_, ?_, rfl, ?_⟩
  · simp [get_top_news_request, findParam_addOpt_ne, findParam, get_api_key]
  · simp [get_headlines_request, findParam, get_api_key]
  · simp [get_similar_articles_request, findParam_addOpt_ne, findParam,
      get_api_key]
  · simp [get_sources_request, findParam_addOpt_ne, findParam, get_api_key]
  · rw [h1, h2]
    intro hEq
    exact h (optJson_injective _ _ (Option.some.inj hEq))

/-- C8 witness: under an environment holding token `alpha` and one holding
token `beta`, the transmitted `api_token` values differ. -/
theorem C8_credential_read_per_call_witness :
    findParam "api_token"
        (search_all_news_request { search := "x" }
          (fun _ => some "alpha")).params
      ≠ findParam "api_token"
          (search_all_news_request { search := "x" }
            (fun _ => some "beta")).params :=
  (C8_credential_read_per_call { search := "x" } {} {} { uuid := "u" } {}
    (fun _ => some "alpha") (fun _ => some "beta")
    (by simp)).2.2.2.2.2.2

/-- C9: every outbound call of every network tool carries the same fixed
timeout of 15 seconds, which lies in the 15 to 30 second range. -/
theorem C9_fixed_timeout (sa : SearchAllNewsArgs) (ta : GetTopNewsArgs)
    (ha : GetHeadlinesArgs) (ga : GetSimilarArticlesArgs) (so : GetSourcesArgs)
    (env : Env) :
    (search_all_news_request sa env).timeout = 15 ∧
    (get_top_news_request ta env).timeout = 15 ∧
    (get_headlines_request ha env).timeout = 15 ∧
    (get_similar_articles_request ga env).timeout = 15 ∧
    (get_sources_request so env).timeout = 15 ∧
    15 ≤ (search_all_news_request sa env).timeout ∧
    (search_all_news_request sa env).timeout ≤ 30 := by
  refine ⟨rfl, rfl, rfl, rfl, rfl, ?_, ?_⟩
  · show (15 : Nat) ≤ 15
    decide
  · show (15 : Nat) ≤ 30
    decide

/-- C10: `get_similar_articles` builds its URL by interpolating the raw
`uuid` into the path: for every uuid string the URL is exactly `BASE_URL`
followed by `/similar/` followed by the uuid as given, with no escaping,
encoding or validation. -/
theorem C10_uuid_interpolated_verbatim (ga : GetSimilarArticlesArgs)
    (env : Env) :
    (get_similar_articles_request ga env).url
      = BASE_URL ++ "/similar/" ++ ga.uuid := rfl
